import Mathlib

/-!
# jfrog-support-bundle-flunky: the support-bundle pipeline

Shallow embedding of `commands/create.go`, `commands/support_bundle.go` and
`commands/utils.go`.  Go strings and byte slices are Lean strings, Go `int` and
`time.Duration` are integers, a Go `error` is the text of its `Error()` method.
Calls that reach outside the process (HTTP transport, configuration resolver,
file system, logger) append an `Event` to a trace; what such a call answers is
given by an oracle that sees the trace so far.
-/

namespace SupportBundle

/-! ## Data model -/

/-- Go `error` value, identified by the text its `Error()` method returns. -/
structure GoError where
  Error : String
deriving DecidableEq, Repr

/-- Go `time.Duration`: a signed count of nanoseconds. -/
abbrev Duration := Int

/-- Value that `encoding/json` stores behind `interface{}`; a float64 number is
kept as the decimal literal it was read from. -/
inductive JSONValue where
  | null
  | bool (b : Bool)
  | number (literal : String)
  | string (s : String)
  | array (xs : List JSONValue)
  | object (kvs : List (String × JSONValue))
deriving Repr

/-- JSONObject is the map representation of a JSON object (`map[string]interface{}`):
a key is either absent or bound to a value. -/
abbrev JSONObject := String → Option JSONValue

/-- The value `make(JSONObject)` creates: no key is present. -/
def JSONObject.empty : JSONObject := fun _ => none

/-- Type `config.ArtifactoryDetails` of jfrog-cli-core.  The repository reads and
writes only `Url`; the remaining fields (user, password, tokens, ...) are kept
together as `Credentials`, whose zero value is the empty string. -/
structure ArtifactoryDetails where
  Url : String := ""
  Credentials : String := ""
deriving DecidableEq, Repr

/-- SupportBundleCommandConfiguration defines the configuration of the
"support-bundle" command. -/
structure SupportBundleCommandConfiguration where
  CaseNumber : String := ""
  JfrogSupportLogsURL : String := ""
deriving DecidableEq, Repr

/-- Struct `HTTPClient` as built by `supportBundleCmd`: `&HTTPClient{RtDetails: ...}`. -/
structure HTTPClient where
  RtDetails : ArtifactoryDetails
deriving DecidableEq, Repr

/-- Identifier of a support bundle (`commands.BundleID`). -/
abbrev BundleID := String

/-- The two values `getPromptOptions` can return: what `newPromptOptionsProvider()`
and what `NewDefaultOptionsProvider()` build. -/
inductive OptionsProvider where
  | promptOptionsProvider
  | defaultOptionsProvider
deriving DecidableEq, Repr

/-- Levels of the jfrog-client-go logger used by the commands. -/
inductive LogLevel where
  | Debug
  | Output
  | Warn
deriving DecidableEq, Repr

/-- One observable interaction with the outside world, with what it answered. -/
inductive Event where
  | Log (level : LogLevel) (msg : String)
  | ClientCreateSupportBundle (payload : String) (status : Int) (body : String)
      (err : Option GoError)
  | GetConfig (serverID : String) (excludeRefreshableTokens : Bool)
      (res : Except GoError ArtifactoryDetails)
  | CreateInitialRefreshableTokensIfNeeded (details : ArtifactoryDetails)
      (updated : ArtifactoryDetails) (err : Option GoError)
  | CreateSupportBundle (client : HTTPClient) (conf : SupportBundleCommandConfiguration)
      (options : OptionsProvider) (bundle : BundleID) (err : Option GoError)
  | DownloadSupportBundle (client : HTTPClient) (timeout interval : Duration)
      (bundle : BundleID) (path : String) (err : Option GoError)
  | UploadSupportBundle (client : HTTPClient) (conf : SupportBundleCommandConfiguration)
      (path : String) (repo : String) (err : Option GoError)
  | Remove (path : String) (err : Option GoError)

/-- History of the interactions of one run, oldest first. -/
abbrev Trace := List Event

/-- The call `log.Debug(msg)`. -/
def logDebug (msg : String) (t : Trace) : Trace := t ++ [Event.Log LogLevel.Debug msg]

/-- The call `log.Output(msg)`. -/
def logOutput (msg : String) (t : Trace) : Trace := t ++ [Event.Log LogLevel.Output msg]

/-- The call `log.Warn(msg)`. -/
def logWarn (msg : String) (t : Trace) : Trace := t ++ [Event.Log LogLevel.Warn msg]

/-- Functions of the Go standard library and of jfrog-client-go that the commands
call; they are pure and their code is not part of the repository. -/
structure Lib where
  /-- The call `json.Unmarshal(bytes, &m)`: the map as left behind, and the error. -/
  Unmarshal : String → JSONObject → JSONObject × Option GoError
  /-- The call `strings.TrimSpace`. -/
  TrimSpace : String → String
  /-- The call `time.ParseDuration`. -/
  ParseDuration : String → Duration × Option GoError
  /-- Method `String()` of `time.Duration`, used by the `%s` verb. -/
  DurationString : Duration → String
  /-- The call `clientutils.AddTrailingSlashIfNeeded`. -/
  AddTrailingSlashIfNeeded : String → String

/-! ## commands/utils.go: JSON helpers -/

/-- ParseJSON parses bytes into a JSONObject. -/
def ParseJSON (lib : Lib) (bytes : String) : JSONObject × Option GoError :=
  let parsedResponse := JSONObject.empty
  lib.Unmarshal bytes parsedResponse

/-- GetString gets the value of a given JSON property. -/
def JSONObject.GetString (o : JSONObject) (p : String) : String × Option GoError :=
  match o p with
  | none => ("", some ⟨"property " ++ p ++ " not found"⟩)
  | some v =>
    match v with
    | JSONValue.string s => (s, none)
    | _ => ("", some ⟨"property " ++ p ++ " is not a string"⟩)

/-! ## commands/create.go -/

/-- Interface `createSupportBundleHTTPClient`: `GetURL` is a getter, and
`CreateSupportBundle` answers with status, body and transport error. -/
structure createSupportBundleHTTPClient where
  GetURL : String
  CreateSupportBundle : Trace → String → Int × String × Option GoError

/-- Type `Clock`: the injected function whose value `%s` renders. -/
abbrev Clock := Unit → String

/-- Struct `creationResponse`; its zero value has the empty ID. -/
structure creationResponse where
  ID : String := ""
deriving DecidableEq, Repr

/-- The request text built by `fmt.Sprintf` in `createSupportBundle`. -/
def creationRequest (caseNumber : String) (generatedOn : String) : String :=
  "\x7b\"name\": \"JFrog Support Case number " ++ caseNumber ++
    "\",\"description\": \"Generated on " ++ generatedOn ++ "\",\"parameters\":\x7b\x7d\x7d"

/-- Function `createSupportBundle` of create.go (which writes the configuration type
and its case-number field with a lower-case initial). -/
def createSupportBundle (lib : Lib) (httpClient : createSupportBundleHTTPClient)
    (conf : SupportBundleCommandConfiguration) (now : Clock) (t : Trace) :
    (creationResponse × Option GoError) × Trace :=
  let t1 := logDebug ("Create Support Bundle " ++ conf.CaseNumber ++ " on " ++ httpClient.GetURL) t
  let request := creationRequest conf.CaseNumber (now ())
  let answer := httpClient.CreateSupportBundle t1 request
  let responseStatus := answer.1
  let body := answer.2.1
  let t2 := t1 ++ [Event.ClientCreateSupportBundle request responseStatus body answer.2.2]
  match answer.2.2 with
  | some err => (({}, some err), t2)
  | none =>
    let t3 := logDebug ("Got " ++ toString responseStatus ++ "\n" ++ body) t2
    if responseStatus ≠ 200 then
      (({}, some ⟨"http request failed with: " ++ toString responseStatus⟩), t3)
    else
      let parsed := ParseJSON lib body
      match parsed.2 with
      | some err => (({}, some err), t3)
      | none =>
        let got := parsed.1.GetString "id"
        match got.2 with
        | some err => (({}, some err), t3)
        | none => (({ ID := got.1 }, none), t3)

/-! ## commands/utils.go: flags and connections -/

/-- Flag name constant `serverIDFlag`. -/
def serverIDFlag : String := "server-id"

/-- Flag name constant `targetServerID`. -/
def targetServerID : String := "target-server-id"

/-- Flag name constant `downloadTimeout`. -/
def downloadTimeout : String := "download-timeout"

/-- Flag name constant `retryInterval`. -/
def retryInterval : String := "retry-interval"

/-- Flag name constant `promptOptions`. -/
def promptOptions : String := "prompt-options"

/-- Flag name constant `cleanup`. -/
def cleanup : String := "cleanup"

/-- Flag name constant `targetRepo`. -/
def targetRepo : String := "target-repo"

/-- Interface `flagValueProvider`. -/
structure flagValueProvider where
  GetStringFlagValue : String → String
  GetBoolFlagValue : String → Bool

/-- Type `components.Context`: the positional arguments and the flag values. -/
structure Context extends flagValueProvider where
  Arguments : List String

/-- Interface `serviceHelper`.  `GetConfig` returns the details or an error; the
token step receives a pointer to the details and may change what it points to. -/
structure serviceHelper where
  GetConfig : Trace → String → Bool → Except GoError ArtifactoryDetails
  CreateInitialRefreshableTokensIfNeeded :
    Trace → ArtifactoryDetails → ArtifactoryDetails × Option GoError

/-- Function `buildRtDetailsFromServerID` of utils.go. -/
def buildRtDetailsFromServerID (lib : Lib) (serverID : String) (configHelper : serviceHelper)
    (t : Trace) : Except GoError ArtifactoryDetails × Trace :=
  let got := configHelper.GetConfig t serverID false
  let t1 := t ++ [Event.GetConfig serverID false got]
  match got with
  | Except.error err => (Except.error err, t1)
  | Except.ok details =>
    let details1 := { details with Url := lib.AddTrailingSlashIfNeeded details.Url }
    let step := configHelper.CreateInitialRefreshableTokensIfNeeded t1 details1
    let t2 := t1 ++ [Event.CreateInitialRefreshableTokensIfNeeded details1 step.1 step.2]
    match step.2 with
    | some err => (Except.error err, t2)
    | none => (Except.ok step.1, t2)

/-- Returns the Artifactory Details of the provided server-id, or the default one. -/
def getRtDetails (lib : Lib) (flagProvider : flagValueProvider) (configHelper : serviceHelper)
    (t : Trace) : Except GoError ArtifactoryDetails × Trace :=
  let serverID := flagProvider.GetStringFlagValue serverIDFlag
  buildRtDetailsFromServerID lib serverID configHelper t

/-- Returns the Artifactory Details of the target-server-id, or JFrog support logs
configured ArtifactoryDetails. -/
def getTargetDetails (lib : Lib) (flagProvider : flagValueProvider)
    (configProvider : serviceHelper) (conf : SupportBundleCommandConfiguration) (t : Trace) :
    Except GoError ArtifactoryDetails × Trace :=
  let serverID := flagProvider.GetStringFlagValue targetServerID
  if serverID = "" then
    (Except.ok { Url := conf.JfrogSupportLogsURL }, t)
  else
    match buildRtDetailsFromServerID lib serverID configProvider t with
    | (Except.error err, t1) => (Except.error err, t1)
    | (Except.ok details, t1) => (Except.ok details, t1)

/-- Function `getDurationOrDefault` of utils.go. -/
def getDurationOrDefault (lib : Lib) (value : String) (defaultValue : Duration) (t : Trace) :
    Duration × Trace :=
  if value = "" then
    (defaultValue, t)
  else
    let parsed := lib.ParseDuration value
    match parsed.2 with
    | some err =>
      let t1 := logDebug ("Error parsing duration: " ++ err.Error) t
      let t2 := logWarn ("Error parsing duration " ++ value ++ ", using default " ++
        lib.DurationString defaultValue) t1
      (defaultValue, t2)
    | none => (parsed.1, t)

/-- Function `getTimeout` of utils.go; the default is `10 * time.Minute`. -/
def getTimeout (lib : Lib) (flagProvider : flagValueProvider) (t : Trace) : Duration × Trace :=
  let defaultTimeout : Duration := 10 * 60000000000
  getDurationOrDefault lib (flagProvider.GetStringFlagValue downloadTimeout) defaultTimeout t

/-- Function `shouldCleanup` of utils.go. -/
def shouldCleanup (flagProvider : flagValueProvider) : Bool :=
  flagProvider.GetBoolFlagValue cleanup

/-- Function `getTargetRepo` of utils.go. -/
def getTargetRepo (flagProvider : flagValueProvider) : String :=
  flagProvider.GetStringFlagValue targetRepo

/-- Function `getPromptOptions` of utils.go. -/
def getPromptOptions (flagProvider : flagValueProvider) : OptionsProvider :=
  if flagProvider.GetBoolFlagValue promptOptions then
    OptionsProvider.promptOptionsProvider
  else
    OptionsProvider.defaultOptionsProvider

/-- Function `getRetryInterval` of utils.go; the default is `5 * time.Second`. -/
def getRetryInterval (lib : Lib) (flagProvider : flagValueProvider) (t : Trace) :
    Duration × Trace :=
  let defaultRetryInterval : Duration := 5 * 1000000000
  getDurationOrDefault lib (flagProvider.GetStringFlagValue retryInterval) defaultRetryInterval t

/-! ## commands/support_bundle.go -/

/-- What lies outside `supportBundleCmd`: the library functions, the configuration
helper behind `artifactoryServiceHelper`, the three phase functions (their code is
in other files of the package) and `os.Remove`. -/
structure Env where
  lib : Lib
  artifactoryConfigHelper : serviceHelper
  CreateSupportBundle :
    Trace → HTTPClient → SupportBundleCommandConfiguration → OptionsProvider →
      BundleID × Option GoError
  DownloadSupportBundle :
    Trace → HTTPClient → Duration → Duration → BundleID → String × Option GoError
  UploadSupportBundle :
    Trace → HTTPClient → SupportBundleCommandConfiguration → String → String → Option GoError
  Remove : Trace → String → Option GoError

/-- The support-logs address that `parseArguments` stores in the configuration. -/
def jfrogSupportLogsURL : String := "https://supportlogs.jfrog.com.invalid/"

/-- Function `parseArguments` of support_bundle.go. -/
def parseArguments (lib : Lib) (ctx : Context) :
    Except GoError SupportBundleCommandConfiguration :=
  match ctx.Arguments with
  | [argument] =>
    Except.ok { CaseNumber := lib.TrimSpace argument, JfrogSupportLogsURL := jfrogSupportLogsURL }
  | arguments =>
    Except.error ⟨"Wrong number of arguments. Expected: 1, " ++ "Received: " ++
      toString arguments.length⟩

/-- Function `deleteSupportBundleArchive` of support_bundle.go. -/
def deleteSupportBundleArchive (env : Env) (supportBundleArchivePath : String) (t : Trace) :
    Trace :=
  let t1 := logDebug ("Deleting generated support bundle: " ++ supportBundleArchivePath) t
  let err := env.Remove t1 supportBundleArchivePath
  let t2 := t1 ++ [Event.Remove supportBundleArchivePath err]
  match err with
  | some e =>
    logWarn ("Error occurred while deleting the generated support bundle archive: " ++
      e.Error) t2
  | none => t2

/-- Function `supportBundleCmd` of support_bundle.go.  The deferred deletion runs
after `UploadSupportBundle` has produced the value that is returned. -/
def supportBundleCmd (env : Env) (componentContext : Context) (t : Trace) :
    Option GoError × Trace :=
  match parseArguments env.lib componentContext with
  | Except.error err => (some err, t)
  | Except.ok conf =>
    match getRtDetails env.lib componentContext.toflagValueProvider
        env.artifactoryConfigHelper t with
    | (Except.error err, t1) => (some err, t1)
    | (Except.ok rtDetails, t1) =>
      let t2 := logDebug ("Using: " ++ rtDetails.Url ++ "...") t1
      let t3 := logOutput ("Case number is " ++ conf.CaseNumber) t2
      match getTargetDetails env.lib componentContext.toflagValueProvider
          env.artifactoryConfigHelper conf t3 with
      | (Except.error err, t4) => (some err, t4)
      | (Except.ok targetRtDetails, t4) =>
        let client : HTTPClient := { RtDetails := rtDetails }
        let targetClient : HTTPClient := { RtDetails := targetRtDetails }
        -- 1. Create Support Bundle
        let options := getPromptOptions componentContext.toflagValueProvider
        let created := env.CreateSupportBundle t4 client conf options
        let t5 := t4 ++ [Event.CreateSupportBundle client conf options created.1 created.2]
        match created.2 with
        | some err => (some err, t5)
        | none =>
          -- 2. Download Support Bundle
          let timeout := getTimeout env.lib componentContext.toflagValueProvider t5
          let interval := getRetryInterval env.lib componentContext.toflagValueProvider timeout.2
          let downloaded :=
            env.DownloadSupportBundle interval.2 client timeout.1 interval.1 created.1
          let t6 := interval.2 ++
            [Event.DownloadSupportBundle client timeout.1 interval.1 created.1
              downloaded.1 downloaded.2]
          match downloaded.2 with
          | some err => (some err, t6)
          | none =>
            let deferred := shouldCleanup componentContext.toflagValueProvider
            -- 3. Upload Support Bundle
            let repo := getTargetRepo componentContext.toflagValueProvider
            let uploaded := env.UploadSupportBundle t6 targetClient conf downloaded.1 repo
            let t7 := t6 ++ [Event.UploadSupportBundle targetClient conf downloaded.1 repo uploaded]
            if deferred then
              (uploaded, deleteSupportBundleArchive env downloaded.1 t7)
            else
              (uploaded, t7)

/-! ## Readiness / Download Controller

The file that defines `DownloadSupportBundle` is not among the sources; the
controller below follows section 4.3 of the specification. -/

/-- Modelled from the spec: the error kinds of section 7 that the download phase can
end with.  Missing from the sources: `DownloadSupportBundle` and its error values. -/
inductive DownloadError where
  | TransportError (cause : GoError)
  | UnexpectedStatus (statusCode : Int)
  | Timeout (elapsed : Duration) (bundleID : BundleID)
  | Cancelled
  | StorageError (cause : GoError)
deriving DecidableEq, Repr

/-- Modelled from the spec: what the Transport of section 4.1 answers to one probe,
`(statusCode, body, transportError)`, and the wall-clock time the blocking call took
beyond its first nanosecond (the call is never instantaneous).  Missing from the
sources: the transport method that `DownloadSupportBundle` calls. -/
structure ProbeAnswer where
  statusCode : Int
  body : String := ""
  transportError : Option GoError := none
  took : Nat := 0
deriving DecidableEq, Repr

/-- Modelled from the spec: the collaborators of the download phase (Transport,
cancellation signal of the calling context, Filesystem of section 6).  Times are
nanoseconds elapsed since the phase began.  Missing from the sources: the interface
`DownloadSupportBundle` takes its client through. -/
structure DownloadEnv where
  /-- Answer to the probe with the given index (0 is the first probe). -/
  probe : Nat → BundleID → ProbeAnswer
  /-- Whether the calling context is cancelled at the given elapsed time. -/
  cancelled : Nat → Bool
  /-- Create-temp-file: the path of the new file, or a failure. -/
  createTemp : BundleID → Except GoError String
  /-- Write the payload to the file at the path. -/
  write : String → String → Option GoError

/-- Modelled from the spec: what the download phase does, in order (probes, waits,
file operations).  Missing from the sources: the body of `DownloadSupportBundle`. -/
inductive DownloadEvent where
  | Probe (index : Nat) (startedAt : Nat) (statusCode : Int)
  | Wait (decidedAt : Nat) (interval : Duration)
  | CreateTemp (bundleID : BundleID)
  | Write (path : String) (payload : String)
deriving DecidableEq, Repr

/-- Modelled from the spec: result of `download`, `(LocalArchive, error)`, with the
steps taken.  Missing from the sources: `DownloadSupportBundle`, which returns it. -/
structure DownloadResult where
  path : String
  err : Option DownloadError
  steps : List DownloadEvent
deriving DecidableEq, Repr

/-- Modelled from the spec: the Ready state of section 4.3, writing the payload of a
2xx answer to a newly created temporary file.  Missing from the sources: the part of
`DownloadSupportBundle` that stores the archive. -/
def downloadReady (env : DownloadEnv) (bundleID : BundleID) (payload : String)
    (steps : List DownloadEvent) : DownloadResult :=
  let steps1 := steps ++ [DownloadEvent.CreateTemp bundleID]
  match env.createTemp bundleID with
  | Except.error e => ⟨"", some (DownloadError.StorageError e), steps1⟩
  | Except.ok path =>
    let steps2 := steps1 ++ [DownloadEvent.Write path payload]
    match env.write path payload with
    | some e => ⟨"", some (DownloadError.StorageError e), steps2⟩
    | none => ⟨path, none, steps2⟩

/-- Modelled from the spec: the Polling state of section 4.3, entered with the index
of the next probe and the time elapsed since the phase began.  Cancellation is
checked once per iteration and right after the blocking call; a transport error is
final; a 2xx answer is the archive; 404 means not ready yet: the deadline is checked,
then the controller waits `interval` and probes again; any other status is
definitive.  Missing from the sources: the retry loop of `DownloadSupportBundle`. -/
def poll (env : DownloadEnv) (timeout interval : Duration) (bundleID : BundleID)
    (index elapsed : Nat) (steps : List DownloadEvent) : DownloadResult :=
  if env.cancelled elapsed then
    ⟨"", some DownloadError.Cancelled, steps⟩
  else
    let answer := env.probe index bundleID
    let now := elapsed + answer.took + 1
    let steps1 := steps ++ [DownloadEvent.Probe index elapsed answer.statusCode]
    if env.cancelled now then
      ⟨"", some DownloadError.Cancelled, steps1⟩
    else
      match answer.transportError with
      | some e => ⟨"", some (DownloadError.TransportError e), steps1⟩
      | none =>
        if 200 ≤ answer.statusCode ∧ answer.statusCode < 300 then
          downloadReady env bundleID answer.body steps1
        else if answer.statusCode = 404 then
          if (now : Int) < timeout then
            poll env timeout interval bundleID (index + 1) (now + interval.toNat)
              (steps1 ++ [DownloadEvent.Wait now interval])
          else
            ⟨"", some (DownloadError.Timeout now bundleID), steps1⟩
        else
          ⟨"", some (DownloadError.UnexpectedStatus answer.statusCode), steps1⟩
termination_by timeout.toNat - elapsed
decreasing_by omega

/-- Modelled from the spec: operation `download(ctx, connection, timeout, interval,
bundleID)` of section 4.3; the first probe happens immediately.  Missing from the
sources: `DownloadSupportBundle`, of which only the caller and the test are there. -/
def download (env : DownloadEnv) (timeout interval : Duration) (bundleID : BundleID) :
    DownloadResult :=
  poll env timeout interval bundleID 0 0 []

/-! ## JSON texts

A reader for the grammar of RFC 8259, used to say what a well-formed JSON text is. -/

/-- The quotation mark. -/
def quoteChar : Char := Char.ofNat 34

/-- The reverse solidus. -/
def escapeChar : Char := Char.ofNat 92

/-- The left curly bracket. -/
def openBrace : Char := Char.ofNat 123

/-- The right curly bracket. -/
def closeBrace : Char := Char.ofNat 125

/-- Drops leading insignificant whitespace (space, tab, line feed, carriage return). -/
def skipWhitespace : List Char → List Char
  | [] => []
  | c :: cs =>
    if c = ' ' ∨ c = '\t' ∨ c = '\n' ∨ c = '\r' then skipWhitespace cs else c :: cs

/-- Value of a hexadecimal digit. -/
def hexValue (c : Char) : Option Nat :=
  if '0' ≤ c ∧ c ≤ '9' then some (c.toNat - '0'.toNat)
  else if 'a' ≤ c ∧ c ≤ 'f' then some (c.toNat - 'a'.toNat + 10)
  else if 'A' ≤ c ∧ c ≤ 'F' then some (c.toNat - 'A'.toNat + 10)
  else none

/-- Character denoted by the four hexadecimal digits of a `u` escape. -/
def hexChar (a b c d : Char) : Option Char :=
  match hexValue a, hexValue b, hexValue c, hexValue d with
  | some x, some y, some z, some w => some (Char.ofNat (((x * 16 + y) * 16 + z) * 16 + w))
  | _, _, _, _ => none

/-- Reads a string after its opening quotation mark: the characters up to the
closing quotation mark, escapes resolved, and the text that follows it.  Control
characters must be escaped. -/
def readString : List Char → List Char → Option (String × List Char)
  | [], _ => none
  | c :: cs, acc =>
    if c = quoteChar then some (String.mk acc.reverse, cs)
    else if c = escapeChar then
      match cs with
      | [] => none
      | e :: r =>
        if e = quoteChar ∨ e = escapeChar ∨ e = '/' then readString r (e :: acc)
        else if e = 'b' then readString r (Char.ofNat 8 :: acc)
        else if e = 'f' then readString r (Char.ofNat 12 :: acc)
        else if e = 'n' then readString r ('\n' :: acc)
        else if e = 'r' then readString r ('\r' :: acc)
        else if e = 't' then readString r ('\t' :: acc)
        else if e = 'u' then
          match r with
          | h1 :: h2 :: h3 :: h4 :: r1 =>
            match hexChar h1 h2 h3 h4 with
            | some u => readString r1 (u :: acc)
            | none => none
          | _ => none
        else none
    else if c.toNat < 32 then none
    else readString cs (c :: acc)

/-- Reads one or more decimal digits. -/
def readDigits (cs : List Char) : Option (List Char × List Char) :=
  match cs.span Char.isDigit with
  | ([], _) => none
  | (ds, rest) => some (ds, rest)

/-- Reads a number: optional minus, integer part without leading zero, optional
fraction, optional exponent. -/
def readNumber (cs : List Char) : Option (String × List Char) :=
  let signed : List Char × List Char :=
    match cs with
    | c :: r => if c = '-' then ([c], r) else ([], cs)
    | [] => ([], cs)
  let whole : Option (List Char × List Char) :=
    match signed.2 with
    | c :: r => if c = '0' then some ([c], r) else readDigits signed.2
    | [] => none
  match whole with
  | none => none
  | some (ws, r1) =>
    let fraction : Option (List Char × List Char) :=
      match r1 with
      | c :: r =>
        if c = '.' then (readDigits r).map (fun p => (c :: p.1, p.2)) else some ([], r1)
      | [] => some ([], r1)
    match fraction with
    | none => none
    | some (fs, r2) =>
      let exponent : Option (List Char × List Char) :=
        match r2 with
        | c :: r =>
          if c = 'e' ∨ c = 'E' then
            match r with
            | s :: r3 =>
              if s = '+' ∨ s = '-' then (readDigits r3).map (fun p => (c :: s :: p.1, p.2))
              else (readDigits r).map (fun p => (c :: p.1, p.2))
            | [] => none
          else some ([], r2)
        | [] => some ([], r2)
      match exponent with
      | none => none
      | some (es, r4) => some (String.mk (signed.1 ++ ws ++ fs ++ es), r4)

/-- Strips the given word from the front of the text. -/
def readWord (word : List Char) (cs : List Char) : Option (List Char) :=
  if word.isPrefixOf cs then some (cs.drop word.length) else none

/-- Reads the members of an object after its opening bracket (at least one member),
up to and including the closing bracket. -/
def readMembers (readVal : List Char → Option (JSONValue × List Char)) :
    Nat → List Char → List (String × JSONValue) →
      Option (List (String × JSONValue) × List Char)
  | 0, _, _ => none
  | fuel + 1, cs, acc =>
    match skipWhitespace cs with
    | [] => none
    | q :: r =>
      if q = quoteChar then
        match readString r [] with
        | none => none
        | some (key, r1) =>
          match skipWhitespace r1 with
          | [] => none
          | colon :: r2 =>
            if colon = ':' then
              match readVal r2 with
              | none => none
              | some (v, r3) =>
                match skipWhitespace r3 with
                | [] => none
                | sep :: r4 =>
                  if sep = ',' then readMembers readVal fuel r4 (acc ++ [(key, v)])
                  else if sep = closeBrace then some (acc ++ [(key, v)], r4)
                  else none
            else none
      else none

/-- Reads the elements of an array after its opening bracket (at least one element),
up to and including the closing bracket. -/
def readElements (readVal : List Char → Option (JSONValue × List Char)) :
    Nat → List Char → List JSONValue → Option (List JSONValue × List Char)
  | 0, _, _ => none
  | fuel + 1, cs, acc =>
    match readVal cs with
    | none => none
    | some (v, r1) =>
      match skipWhitespace r1 with
      | [] => none
      | sep :: r2 =>
        if sep = ',' then readElements readVal fuel r2 (acc ++ [v])
        else if sep = ']' then some (acc ++ [v], r2)
        else none

/-- Reads one JSON value, surrounded by optional whitespace on the left; the first
argument bounds the nesting depth. -/
def readValue : Nat → List Char → Option (JSONValue × List Char)
  | 0, _ => none
  | depth + 1, cs =>
    match skipWhitespace cs with
    | [] => none
    | c :: r =>
      if c = quoteChar then
        (readString r []).map (fun p => (JSONValue.string p.1, p.2))
      else if c = openBrace then
        match skipWhitespace r with
        | [] => none
        | d :: r1 =>
          if d = closeBrace then some (JSONValue.object [], r1)
          else (readMembers (readValue depth) r.length r []).map
            (fun p => (JSONValue.object p.1, p.2))
      else if c = '[' then
        match skipWhitespace r with
        | [] => none
        | d :: r1 =>
          if d = ']' then some (JSONValue.array [], r1)
          else (readElements (readValue depth) r.length r []).map
            (fun p => (JSONValue.array p.1, p.2))
      else if c = 't' then
        (readWord "true".toList (c :: r)).map (fun rest => (JSONValue.bool true, rest))
      else if c = 'f' then
        (readWord "false".toList (c :: r)).map (fun rest => (JSONValue.bool false, rest))
      else if c = 'n' then
        (readWord "null".toList (c :: r)).map (fun rest => (JSONValue.null, rest))
      else
        (readNumber (c :: r)).map (fun p => (JSONValue.number p.1, p.2))

/-- The value a JSON text denotes, or `none` when the text is not well formed. -/
def readJSONText (text : String) : Option JSONValue :=
  match readValue (text.length + 1) text.toList with
  | none => none
  | some (v, rest) => if skipWhitespace rest = [] then some v else none

/-- The names of the properties of the object a JSON text denotes, in order of
appearance; `none` when the text is not a well-formed JSON object. -/
def propertyNames (text : String) : Option (List String) :=
  match readJSONText text with
  | some (JSONValue.object kvs) => some (kvs.map Prod.fst)
  | _ => none

/-! ## Observations on traces -/

/-- Whether the event is a call of one of the three phase functions. -/
def Event.isPhase : Event → Bool
  | Event.CreateSupportBundle _ _ _ _ _ => true
  | Event.DownloadSupportBundle _ _ _ _ _ _ => true
  | Event.UploadSupportBundle _ _ _ _ _ => true
  | _ => false

/-- Whether the event is a call of `os.Remove`. -/
def Event.isRemove : Event → Bool
  | Event.Remove _ _ => true
  | _ => false

/-- Whether the event is a call of the transport method `CreateSupportBundle`. -/
def Event.isClientCreate : Event → Bool
  | Event.ClientCreateSupportBundle _ _ _ _ => true
  | _ => false

/-- The phase calls of a trace, in order. -/
def phases (t : Trace) : Trace := t.filter Event.isPhase

/-- The phase calls and the file deletions of a trace, in order. -/
def phasesAndRemovals (t : Trace) : Trace := t.filter (fun e => e.isPhase || e.isRemove)

/-- The file deletions of a trace, in order. -/
def removals (t : Trace) : Trace := t.filter Event.isRemove

/-- The transport calls `CreateSupportBundle` of a trace, in order. -/
def clientCreateCalls (t : Trace) : Trace := t.filter Event.isClientCreate

/-- Whether the last character of the address is a slash. -/
def endsWithSlash (url : String) : Prop := url.toList.getLast? = some '/'

instance (url : String) : Decidable (endsWithSlash url) := by
  unfold endsWithSlash
  infer_instance

/-- Function `AddTrailingSlashIfNeeded` of jfrog-client-go (package `utils`), the
helper that `buildRtDetailsFromServerID` calls: a slash is appended unless the address
is empty or already ends with one
(`if url != "" && !strings.HasSuffix(url, "/") { url += "/" }`). -/
def AddTrailingSlashIfNeeded (url : String) : String :=
  if url ≠ "" ∧ ¬ endsWithSlash url then url ++ "/" else url

/-- Whether the steps are exactly the run of the Polling state that begins with the
probe of the given index at the given time when every answer is 404: each probe ends
`took + 1` after it started; as long as that end lies before `timeout`, a wait of
`interval` decided at that end and the next probe, started when the wait is over,
follow; the last probe ends at `reported`, at or after `timeout`, and nothing
follows it. -/
def pollsUntilDeadline (env : DownloadEnv) (timeout interval : Duration) (bundleID : BundleID)
    (reported : Nat) : Nat → Nat → List DownloadEvent → Bool
  | index, start, [DownloadEvent.Probe i startedAt statusCode] =>
    decide (i = index) && decide (startedAt = start) && decide (statusCode = 404) &&
      decide (reported = start + (env.probe index bundleID).took + 1) &&
      decide (timeout ≤ (reported : Int))
  | index, start,
      DownloadEvent.Probe i startedAt statusCode :: DownloadEvent.Wait decidedAt waited :: rest =>
    decide (i = index) && decide (startedAt = start) && decide (statusCode = 404) &&
      decide (decidedAt = start + (env.probe index bundleID).took + 1) &&
      decide ((decidedAt : Int) < timeout) && decide (waited = interval) &&
      pollsUntilDeadline env timeout interval bundleID reported (index + 1)
        (decidedAt + interval.toNat) rest
  | _, _, _ => false

/-- A filter on events that lets through none of the events written while flags are
read and connections are resolved (log lines, resolver calls, token steps). -/
structure IgnoresSetup (p : Event → Bool) : Prop where
  log : ∀ level msg, p (Event.Log level msg) = false
  getConfig : ∀ serverID exclude res, p (Event.GetConfig serverID exclude res) = false
  tokens : ∀ details updated err,
    p (Event.CreateInitialRefreshableTokensIfNeeded details updated err) = false

/-! ## Sample collaborators -/

/-- A decoder in the manner of `json.Unmarshal` into a map: an object text fills the
map, `null` leaves it empty, anything else is an error. -/
def sampleUnmarshal (bytes : String) (m : JSONObject) : JSONObject × Option GoError :=
  match readJSONText bytes with
  | some (JSONValue.object kvs) =>
    (fun key => match kvs.reverse.lookup key with
      | some v => some v
      | none => m key, none)
  | some JSONValue.null => (JSONObject.empty, none)
  | some _ => (m, some ⟨"json: cannot unmarshal into Go value of type commands.JSONObject"⟩)
  | none => (m, some ⟨"invalid character in JSON text"⟩)

/-- Library functions for the examples. -/
def sampleLib : Lib where
  Unmarshal := sampleUnmarshal
  TrimSpace := fun s => String.mk ((s.toList.dropWhile (fun c => c = ' ')).reverse.dropWhile
    (fun c => c = ' ')).reverse
  ParseDuration := fun s =>
    if s = "1s" then (1000000000, none)
    else if s = "100ms" then (100000000, none)
    else (0, some ⟨"time: invalid duration " ++ s⟩)
  DurationString := fun d => toString d ++ "ns"
  AddTrailingSlashIfNeeded := AddTrailingSlashIfNeeded

/-- A transport that answers every creation request with the given status and body
and no transport error. -/
def sampleClient (status : Int) (body : String) : createSupportBundleHTTPClient where
  GetURL := "http://localhost:8081/artifactory/"
  CreateSupportBundle := fun _ _ => (status, body, none)

/-- A resolver that knows every server under one address and needs no token. -/
def sampleHelper : serviceHelper where
  GetConfig := fun _ serverID _ =>
    Except.ok { Url := "http://" ++ serverID ++ ":8081/artifactory", Credentials := "admin" }
  CreateInitialRefreshableTokensIfNeeded := fun _ details => (details, none)

/-- A resolver on a machine where no server is configured: the details it yields
have an empty address. -/
def unconfiguredHelper : serviceHelper where
  GetConfig := fun _ _ _ => Except.ok { Url := "", Credentials := "" }
  CreateInitialRefreshableTokensIfNeeded := fun _ details => (details, none)

/-- Flags and arguments of an invocation for case `foo` with the given values of
`target-server-id` and `cleanup`. -/
def sampleContext (target : String) (doCleanup : Bool) : Context where
  Arguments := ["foo"]
  GetStringFlagValue := fun name =>
    if name = targetServerID then target
    else if name = serverIDFlag then "source"
    else if name = targetRepo then "logs"
    else ""
  GetBoolFlagValue := fun name => if name = cleanup then doCleanup else false

/-- An environment in which creation yields bundle `b1`, download yields the archive
path with the given error, and upload and deletion answer as given. -/
def sampleEnv (downloadErr uploadErr removeErr : Option GoError) : Env where
  lib := sampleLib
  artifactoryConfigHelper := sampleHelper
  CreateSupportBundle := fun _ _ _ _ => ("b1", none)
  DownloadSupportBundle := fun _ _ _ _ bundle =>
    match downloadErr with
    | some e => ("", some e)
    | none => ("/tmp/" ++ bundle ++ ".zip", none)
  UploadSupportBundle := fun _ _ _ _ _ => uploadErr
  Remove := fun _ _ => removeErr

/-- The configuration `parseArguments` builds for case `foo`. -/
def sampleConf : SupportBundleCommandConfiguration :=
  { CaseNumber := "foo", JfrogSupportLogsURL := jfrogSupportLogsURL }

/-- The source connection the sample resolver yields for server `source`. -/
def sampleSource : ArtifactoryDetails :=
  { Url := "http://source:8081/artifactory/", Credentials := "admin" }

/-- The default destination connection. -/
def sampleDestination : ArtifactoryDetails := { Url := jfrogSupportLogsURL }

/-- A remote service that does not know the bundle: every probe is answered 404
at once; the context is never cancelled. -/
def notFoundEnv : DownloadEnv where
  probe := fun _ _ => { statusCode := 404 }
  cancelled := fun _ => false
  createTemp := fun bundleID => Except.ok ("/tmp/" ++ bundleID ++ ".zip")
  write := fun _ _ => none

/-! ## Bundle Creator -/

/-- What `createSupportBundle` returns, and the trace it leaves, once the transport
has answered the request without a transport error. -/
theorem createSupportBundle_unfold (lib : Lib) (httpClient : createSupportBundleHTTPClient)
    (conf : SupportBundleCommandConfiguration) (now : Clock) (t : Trace)
    (status : Int) (body : String)
    (hAnswer : httpClient.CreateSupportBundle
      (logDebug ("Create Support Bundle " ++ conf.CaseNumber ++ " on " ++ httpClient.GetURL) t)
      (creationRequest conf.CaseNumber (now ())) = (status, body, none)) :
    createSupportBundle lib httpClient conf now t =
      if status ≠ 200 then
        (({}, some ⟨"http request failed with: " ++ toString status⟩),
          t ++ [Event.Log LogLevel.Debug
                  ("Create Support Bundle " ++ conf.CaseNumber ++ " on " ++ httpClient.GetURL),
                Event.ClientCreateSupportBundle (creationRequest conf.CaseNumber (now ()))
                  status body none,
                Event.Log LogLevel.Debug ("Got " ++ toString status ++ "\n" ++ body)])
      else
        (match (lib.Unmarshal body JSONObject.empty).2 with
          | some err => ({}, some err)
          | none =>
            match ((lib.Unmarshal body JSONObject.empty).1.GetString "id").2 with
            | some err => ({}, some err)
            | none => ({ ID := ((lib.Unmarshal body JSONObject.empty).1.GetString "id").1 }, none),
          t ++ [Event.Log LogLevel.Debug
                  ("Create Support Bundle " ++ conf.CaseNumber ++ " on " ++ httpClient.GetURL),
                Event.ClientCreateSupportBundle (creationRequest conf.CaseNumber (now ()))
                  status body none,
                Event.Log LogLevel.Debug ("Got " ++ toString status ++ "\n" ++ body)]) := by
  unfold createSupportBundle
  simp only [logDebug] at hAnswer ⊢
  simp only [hAnswer, ParseJSON, List.append_assoc, List.singleton_append]
  by_cases hs : status = 200
  · simp only [hs, ne_eq, not_true_eq_false, if_false]
    cases hp : (lib.Unmarshal body JSONObject.empty).2 with
    | some err => simp
    | none =>
      cases hg : ((lib.Unmarshal body JSONObject.empty).1.GetString "id").2 with
      | some err => simp
      | none => simp
  · simp [hs]

/-- C1: when the transport answers without error, with status 200 and a body that
parses as a JSON object whose `id` property is the string `s`, `createSupportBundle`
succeeds and the bundle ID it returns is exactly `s`. -/
theorem createSupportBundle_returns_id (lib : Lib) (httpClient : createSupportBundleHTTPClient)
    (conf : SupportBundleCommandConfiguration) (now : Clock) (t : Trace)
    (body : String) (obj : JSONObject) (s : String)
    (hAnswer : httpClient.CreateSupportBundle
      (logDebug ("Create Support Bundle " ++ conf.CaseNumber ++ " on " ++ httpClient.GetURL) t)
      (creationRequest conf.CaseNumber (now ())) = (200, body, none))
    (hParse : lib.Unmarshal body JSONObject.empty = (obj, none))
    (hId : obj "id" = some (JSONValue.string s)) :
    (createSupportBundle lib httpClient conf now t).1 = ({ ID := s }, none) := by
  rw [createSupportBundle_unfold lib httpClient conf now t 200 body hAnswer]
  simp [hParse, JSONObject.GetString, hId]

/-- Witness for C1: a transport answering 200 with an object whose `id` starts with a
space and ends with a line feed; both are kept. -/
theorem createSupportBundle_returns_id_witness :
    (createSupportBundle sampleLib (sampleClient 200 "\x7b\"id\": \" abc\\n\"\x7d")
      { CaseNumber := "123" } (fun _ => "2020-05-01") []).1 = ({ ID := " abc\n" }, none) :=
  createSupportBundle_returns_id sampleLib (sampleClient 200 "\x7b\"id\": \" abc\\n\"\x7d")
    { CaseNumber := "123" } (fun _ => "2020-05-01") [] "\x7b\"id\": \" abc\\n\"\x7d"
    (sampleUnmarshal "\x7b\"id\": \" abc\\n\"\x7d" JSONObject.empty).1 " abc\n"
    rfl rfl rfl

/-- C2: when the transport answers without error and with a status other than 200,
`createSupportBundle` fails with the error `http request failed with: ` followed by
the decimal status, whatever the body, returns the empty bundle ID, and the trace
gains exactly one transport call. -/
theorem createSupportBundle_unexpected_status (lib : Lib)
    (httpClient : createSupportBundleHTTPClient) (conf : SupportBundleCommandConfiguration)
    (now : Clock) (t : Trace) (status : Int) (body : String)
    (hAnswer : httpClient.CreateSupportBundle
      (logDebug ("Create Support Bundle " ++ conf.CaseNumber ++ " on " ++ httpClient.GetURL) t)
      (creationRequest conf.CaseNumber (now ())) = (status, body, none))
    (hStatus : status ≠ 200) :
    (createSupportBundle lib httpClient conf now t).1 =
        ({ ID := "" }, some ⟨"http request failed with: " ++ toString status⟩) ∧
      clientCreateCalls (createSupportBundle lib httpClient conf now t).2 =
        clientCreateCalls t ++
          [Event.ClientCreateSupportBundle (creationRequest conf.CaseNumber (now ()))
            status body none] := by
  rw [createSupportBundle_unfold lib httpClient conf now t status body hAnswer]
  simp [hStatus, clientCreateCalls, List.filter_cons, Event.isClientCreate]

/-- Witness for C2: status 201 with a body that would otherwise be accepted. -/
theorem createSupportBundle_unexpected_status_witness :
    (createSupportBundle sampleLib (sampleClient 201 "\x7b\"id\": \"abc\"\x7d")
        { CaseNumber := "123" } (fun _ => "2020-05-01") []).1 =
        ({ ID := "" }, some ⟨"http request failed with: 201"⟩) ∧
      (clientCreateCalls (createSupportBundle sampleLib
        (sampleClient 201 "\x7b\"id\": \"abc\"\x7d")
        { CaseNumber := "123" } (fun _ => "2020-05-01") []).2).length = 1 := by
  have h := createSupportBundle_unexpected_status sampleLib
    (sampleClient 201 "\x7b\"id\": \"abc\"\x7d") { CaseNumber := "123" }
    (fun _ => "2020-05-01") [] 201 "\x7b\"id\": \"abc\"\x7d" rfl (by decide)
  refine ⟨?_, ?_⟩
  · rw [h.1]; decide
  · rw [h.2]; decide

/-- C3: when the transport answers without error and with status 200 but the body
does not parse to an object with a string `id` (the decoder reports an error, or the
object has no `id`, or `id` is not a string), `createSupportBundle` fails with the
decoder's error, `property id not found` or `property id is not a string`
respectively, and returns the empty bundle ID. -/
theorem createSupportBundle_malformed_response (lib : Lib)
    (httpClient : createSupportBundleHTTPClient) (conf : SupportBundleCommandConfiguration)
    (now : Clock) (t : Trace) (body : String)
    (hAnswer : httpClient.CreateSupportBundle
      (logDebug ("Create Support Bundle " ++ conf.CaseNumber ++ " on " ++ httpClient.GetURL) t)
      (creationRequest conf.CaseNumber (now ())) = (200, body, none))
    (hBad : ∀ s, ¬ ((lib.Unmarshal body JSONObject.empty).2 = none ∧
      (lib.Unmarshal body JSONObject.empty).1 "id" = some (JSONValue.string s))) :
    ∃ e, (createSupportBundle lib httpClient conf now t).1 = ({ ID := "" }, some e) ∧
      ((lib.Unmarshal body JSONObject.empty).2 = some e ∨
       ((lib.Unmarshal body JSONObject.empty).2 = none ∧
         (lib.Unmarshal body JSONObject.empty).1 "id" = none ∧
         e = ⟨"property id not found"⟩) ∨
       ((lib.Unmarshal body JSONObject.empty).2 = none ∧
         (∃ v, (lib.Unmarshal body JSONObject.empty).1 "id" = some v ∧
           ∀ s, v ≠ JSONValue.string s) ∧
         e = ⟨"property id is not a string"⟩)) := by
  rw [createSupportBundle_unfold lib httpClient conf now t 200 body hAnswer]
  cases hp : (lib.Unmarshal body JSONObject.empty).2 with
  | some err => exact ⟨err, by simp, Or.inl rfl⟩
  | none =>
    cases hv : (lib.Unmarshal body JSONObject.empty).1 "id" with
    | none =>
      exact ⟨⟨"property id not found"⟩, by simp [JSONObject.GetString, hv],
        Or.inr (Or.inl ⟨rfl, rfl, rfl⟩)⟩
    | some v =>
      have hne : ∀ s, v ≠ JSONValue.string s := fun s hEq => hBad s ⟨hp, by rw [hv, hEq]⟩
      refine ⟨⟨"property id is not a string"⟩, ?_, Or.inr (Or.inr ⟨rfl, ⟨v, rfl, hne⟩, rfl⟩)⟩
      cases v with
      | string s => exact absurd rfl (hne s)
      | null => simp [JSONObject.GetString, hv]
      | bool b => simp [JSONObject.GetString, hv]
      | number n => simp [JSONObject.GetString, hv]
      | array xs => simp [JSONObject.GetString, hv]
      | object kvs => simp [JSONObject.GetString, hv]

/-- Witness for C3: status 200 with an object whose `id` is a number. -/
theorem createSupportBundle_malformed_response_witness :
    ∃ e, (createSupportBundle sampleLib (sampleClient 200 "\x7b\"id\": 5\x7d")
        { CaseNumber := "123" } (fun _ => "2020-05-01") []).1 = ({ ID := "" }, some e) ∧
      ((sampleLib.Unmarshal "\x7b\"id\": 5\x7d" JSONObject.empty).2 = some e ∨
       ((sampleLib.Unmarshal "\x7b\"id\": 5\x7d" JSONObject.empty).2 = none ∧
         (sampleLib.Unmarshal "\x7b\"id\": 5\x7d" JSONObject.empty).1 "id" = none ∧
         e = ⟨"property id not found"⟩) ∨
       ((sampleLib.Unmarshal "\x7b\"id\": 5\x7d" JSONObject.empty).2 = none ∧
         (∃ v, (sampleLib.Unmarshal "\x7b\"id\": 5\x7d" JSONObject.empty).1 "id" = some v ∧
           ∀ s, v ≠ JSONValue.string s) ∧
         e = ⟨"property id is not a string"⟩)) :=
  createSupportBundle_malformed_response sampleLib (sampleClient 200 "\x7b\"id\": 5\x7d")
    { CaseNumber := "123" } (fun _ => "2020-05-01") [] "\x7b\"id\": 5\x7d" rfl
    (by
      intro s h
      have h5 : (sampleLib.Unmarshal "\x7b\"id\": 5\x7d" JSONObject.empty).1 "id" =
          some (JSONValue.number "5") := rfl
      rw [h5] at h
      cases h.2)

/-- C9: for the case number `a"b` the payload that `createSupportBundle` sends is the
template with the case number copied in unescaped, which is not a well-formed JSON
text; for the case number `1","extra":"x` the payload is an object with a fourth
property `extra`. -/
theorem createSupportBundle_payload_unescaped :
    clientCreateCalls (createSupportBundle sampleLib (sampleClient 200 "")
        { CaseNumber := "a\"b" } (fun _ => "T") []).2 =
      [Event.ClientCreateSupportBundle
        "\x7b\"name\": \"JFrog Support Case number a\"b\",\"description\": \"Generated on T\",\"parameters\":\x7b\x7d\x7d"
        200 "" none] ∧
    readJSONText
      "\x7b\"name\": \"JFrog Support Case number a\"b\",\"description\": \"Generated on T\",\"parameters\":\x7b\x7d\x7d"
      = none ∧
    propertyNames (creationRequest "1\",\"extra\":\"x" "T") =
      some ["name", "extra", "description", "parameters"] ∧
    propertyNames (creationRequest "123" "T") = some ["name", "description", "parameters"] := by
  refine ⟨rfl, rfl, ?_, ?_⟩
  · decide
  · decide

/-! ## Connections -/

/-- The configuration `parseArguments` builds carries the fixed support-logs address. -/
theorem parseArguments_url (lib : Lib) (ctx : Context) (conf : SupportBundleCommandConfiguration)
    (h : parseArguments lib ctx = Except.ok conf) :
    conf.JfrogSupportLogsURL = jfrogSupportLogsURL := by
  unfold parseArguments at h
  split at h
  · cases h; rfl
  · cases h

/-- What `buildRtDetailsFromServerID` returns on success: the resolved details with
the address normalised, as the token step left them. -/
theorem buildRtDetailsFromServerID_ok (lib : Lib) (serverID : String) (helper : serviceHelper)
    (t t' : Trace) (d : ArtifactoryDetails)
    (h : buildRtDetailsFromServerID lib serverID helper t = (Except.ok d, t')) :
    ∃ r, helper.GetConfig t serverID false = Except.ok r ∧
      d = (helper.CreateInitialRefreshableTokensIfNeeded
        (t ++ [Event.GetConfig serverID false (Except.ok r)])
        { r with Url := lib.AddTrailingSlashIfNeeded r.Url }).1 := by
  unfold buildRtDetailsFromServerID at h
  cases hg : helper.GetConfig t serverID false with
  | error e => simp [hg] at h
  | ok r =>
    refine ⟨r, rfl, ?_⟩
    simp only [hg] at h
    split at h
    · simp at h
    · simp only [Prod.mk.injEq, Except.ok.injEq] at h
      exact h.1.symm

/-- C6: when the `target-server-id` flag is empty, `getTargetDetails` returns without
error a connection whose address is `conf.JfrogSupportLogsURL` (and nothing else), the
same for every resolver, and leaves the trace as it was, so the resolver is not
consulted; the configuration `parseArguments` builds has the fixed address
`https://supportlogs.jfrog.com.invalid/` there. -/
theorem getTargetDetails_default (lib : Lib) (flagProvider : flagValueProvider)
    (configProvider : serviceHelper) (conf : SupportBundleCommandConfiguration) (t : Trace)
    (hFlag : flagProvider.GetStringFlagValue targetServerID = "") :
    getTargetDetails lib flagProvider configProvider conf t =
        (Except.ok { Url := conf.JfrogSupportLogsURL, Credentials := "" }, t) ∧
      (∀ other : serviceHelper,
        getTargetDetails lib flagProvider other conf t =
          getTargetDetails lib flagProvider configProvider conf t) ∧
      (∀ ctx parsed, parseArguments lib ctx = Except.ok parsed →
        parsed.JfrogSupportLogsURL = "https://supportlogs.jfrog.com.invalid/") := by
  refine ⟨?_, ?_, ?_⟩
  · simp [getTargetDetails, hFlag]
  · intro other
    simp [getTargetDetails, hFlag]
  · intro ctx parsed h
    exact parseArguments_url lib ctx parsed h

/-- Witness for C6: an invocation without `target-server-id`. -/
theorem getTargetDetails_default_witness :
    getTargetDetails sampleLib (sampleContext "" true).toflagValueProvider sampleHelper
        { CaseNumber := "foo", JfrogSupportLogsURL := jfrogSupportLogsURL } [] =
      (Except.ok { Url := "https://supportlogs.jfrog.com.invalid/", Credentials := "" }, []) :=
  (getTargetDetails_default sampleLib (sampleContext "" true).toflagValueProvider sampleHelper
    { CaseNumber := "foo", JfrogSupportLogsURL := jfrogSupportLogsURL } [] rfl).1

/-- A non-empty address leaves `AddTrailingSlashIfNeeded` with a slash at its end. -/
theorem endsWithSlash_addTrailingSlashIfNeeded (url : String) (h : url ≠ "") :
    endsWithSlash (AddTrailingSlashIfNeeded url) := by
  unfold AddTrailingSlashIfNeeded
  by_cases hs : endsWithSlash url
  · simp only [hs, not_true_eq_false, and_false, if_false]
  · simp only [h, hs, ne_eq, not_false_eq_true, and_self, if_true]
    unfold endsWithSlash
    have hdata : (url ++ "/").toList = url.toList ++ ['/'] := by
      simp [String.toList, String.data_append]
    rw [hdata]
    simp

/-- C10 as stated fails: when the resolver yields details whose address is empty,
`AddTrailingSlashIfNeeded` leaves it empty, so the source connection of `getRtDetails`
and the destination connection of `getTargetDetails` with `target-server-id` set both
have an address that does not end with a slash. -/
theorem getRtDetails_empty_url :
    (getRtDetails sampleLib (sampleContext "target" true).toflagValueProvider
        unconfiguredHelper []).1 = Except.ok { Url := "", Credentials := "" } ∧
    (getTargetDetails sampleLib (sampleContext "target" true).toflagValueProvider
        unconfiguredHelper sampleConf []).1 = Except.ok { Url := "", Credentials := "" } ∧
    sampleLib.AddTrailingSlashIfNeeded = AddTrailingSlashIfNeeded ∧
    ¬ endsWithSlash "" := by
  refine ⟨rfl, rfl, rfl, ?_⟩
  decide

/-- C10, amended: with the library's `AddTrailingSlashIfNeeded`, a resolver that never
yields an empty address, a token step that leaves the address alone and the
configuration built by `parseArguments`, every connection has an address that ends
with a slash: the source connection of `getRtDetails` and the destination connection
of `getTargetDetails`, both when `target-server-id` is set and when it is empty. -/
theorem connections_end_with_slash (lib : Lib) (flagProvider : flagValueProvider)
    (helper : serviceHelper) (conf : SupportBundleCommandConfiguration) (t : Trace)
    (hLib : lib.AddTrailingSlashIfNeeded = AddTrailingSlashIfNeeded)
    (hRes : ∀ h serverID d, helper.GetConfig h serverID false = Except.ok d → d.Url ≠ "")
    (hTok : ∀ h d, (helper.CreateInitialRefreshableTokensIfNeeded h d).1.Url = d.Url)
    (hConf : ∃ ctx, parseArguments lib ctx = Except.ok conf) :
    (∀ d t', getRtDetails lib flagProvider helper t = (Except.ok d, t') →
      endsWithSlash d.Url) ∧
    (∀ d t', getTargetDetails lib flagProvider helper conf t = (Except.ok d, t') →
      endsWithSlash d.Url) := by
  have hBuild : ∀ serverID d t',
      buildRtDetailsFromServerID lib serverID helper t = (Except.ok d, t') →
      endsWithSlash d.Url := by
    intro serverID d t' h
    obtain ⟨r, hr, hd⟩ := buildRtDetailsFromServerID_ok lib serverID helper t t' d h
    rw [hd, hTok, hLib]
    exact endsWithSlash_addTrailingSlashIfNeeded r.Url (hRes t serverID r hr)
  refine ⟨?_, ?_⟩
  · intro d t' h
    exact hBuild _ d t' h
  · intro d t' h
    by_cases hFlag : flagProvider.GetStringFlagValue targetServerID = ""
    · simp [getTargetDetails, hFlag] at h
      rw [← h.1]
      obtain ⟨ctx, hctx⟩ := hConf
      show endsWithSlash conf.JfrogSupportLogsURL
      rw [parseArguments_url lib ctx conf hctx]
      decide
    · unfold getTargetDetails at h
      simp only [hFlag, if_false] at h
      split at h
      · simp at h
      · rename_i details t1 hb
        simp only [Prod.mk.injEq, Except.ok.injEq] at h
        rw [← h.1]
        exact hBuild _ details t1 hb

/-- Witness for C10: source and explicit destination resolved by the sample resolver,
whose addresses lack the slash, for the configuration of case `foo`. -/
theorem connections_end_with_slash_witness :
    (∀ d t', getRtDetails sampleLib (sampleContext "target" true).toflagValueProvider
        sampleHelper [] = (Except.ok d, t') → endsWithSlash d.Url) ∧
    (∀ d t', getTargetDetails sampleLib (sampleContext "target" true).toflagValueProvider
        sampleHelper sampleConf [] = (Except.ok d, t') → endsWithSlash d.Url) :=
  connections_end_with_slash sampleLib (sampleContext "target" true).toflagValueProvider
    sampleHelper sampleConf [] rfl
    (fun _ serverID d h => by
      simp only [sampleHelper, Except.ok.injEq] at h
      rw [← h]
      intro hEq
      have hLen := congrArg String.length hEq
      simp only [String.length_append] at hLen
      have h7 : "http://".length = 7 := by decide
      have h0 : "".length = 0 := by decide
      omega)
    (fun _ _ => rfl)
    ⟨sampleContext "target" true, rfl⟩

/-! ## Pipeline Orchestrator -/

/-- Phase calls are not setup events. -/
theorem ignoresSetup_isPhase : IgnoresSetup Event.isPhase :=
  ⟨fun _ _ => rfl, fun _ _ _ => rfl, fun _ _ _ => rfl⟩

/-- File deletions are not setup events. -/
theorem ignoresSetup_isRemove : IgnoresSetup Event.isRemove :=
  ⟨fun _ _ => rfl, fun _ _ _ => rfl, fun _ _ _ => rfl⟩

/-- Phase calls and file deletions are not setup events. -/
theorem ignoresSetup_isPhaseOrRemove : IgnoresSetup (fun e => e.isPhase || e.isRemove) :=
  ⟨fun _ _ => rfl, fun _ _ _ => rfl, fun _ _ _ => rfl⟩

/-- Resolving a connection adds only setup events. -/
theorem filter_buildRtDetailsFromServerID (p : Event → Bool) (hp : IgnoresSetup p) (lib : Lib)
    (serverID : String) (helper : serviceHelper) (t : Trace) :
    (buildRtDetailsFromServerID lib serverID helper t).2.filter p = t.filter p := by
  unfold buildRtDetailsFromServerID
  cases hg : helper.GetConfig t serverID false with
  | error e => simp [hp.getConfig]
  | ok r =>
    simp only
    split <;> simp [hp.getConfig, hp.tokens]

/-- Resolving the source connection adds only setup events. -/
theorem filter_getRtDetails (p : Event → Bool) (hp : IgnoresSetup p) (lib : Lib)
    (flagProvider : flagValueProvider) (helper : serviceHelper) (t : Trace) :
    (getRtDetails lib flagProvider helper t).2.filter p = t.filter p := by
  unfold getRtDetails
  exact filter_buildRtDetailsFromServerID p hp lib _ helper t

/-- Resolving the destination connection adds only setup events. -/
theorem filter_getTargetDetails (p : Event → Bool) (hp : IgnoresSetup p) (lib : Lib)
    (flagProvider : flagValueProvider) (helper : serviceHelper)
    (conf : SupportBundleCommandConfiguration) (t : Trace) :
    (getTargetDetails lib flagProvider helper conf t).2.filter p = t.filter p := by
  unfold getTargetDetails
  simp only
  split
  · rfl
  · have h := filter_buildRtDetailsFromServerID p hp lib
      (flagProvider.GetStringFlagValue targetServerID) helper t
    split <;> rename_i hb <;> rw [hb] at h <;> exact h

/-- Reading a duration flag adds only log lines. -/
theorem filter_getDurationOrDefault (p : Event → Bool) (hp : IgnoresSetup p) (lib : Lib)
    (value : String) (defaultValue : Duration) (t : Trace) :
    (getDurationOrDefault lib value defaultValue t).2.filter p = t.filter p := by
  unfold getDurationOrDefault
  split
  · rfl
  · simp only
    split <;> simp [logDebug, logWarn, hp.log]

/-- Reading the timeout flag adds only log lines. -/
theorem filter_getTimeout (p : Event → Bool) (hp : IgnoresSetup p) (lib : Lib)
    (flagProvider : flagValueProvider) (t : Trace) :
    (getTimeout lib flagProvider t).2.filter p = t.filter p := by
  unfold getTimeout
  exact filter_getDurationOrDefault p hp lib _ _ t

/-- Reading the retry interval flag adds only log lines. -/
theorem filter_getRetryInterval (p : Event → Bool) (hp : IgnoresSetup p) (lib : Lib)
    (flagProvider : flagValueProvider) (t : Trace) :
    (getRetryInterval lib flagProvider t).2.filter p = t.filter p := by
  unfold getRetryInterval
  exact filter_getDurationOrDefault p hp lib _ _ t

/-- Deleting the archive adds log lines and exactly one call of `os.Remove`. -/
theorem filter_deleteSupportBundleArchive (p : Event → Bool) (hp : IgnoresSetup p) (env : Env)
    (path : String) (t : Trace) :
    ∃ r, (deleteSupportBundleArchive env path t).filter p =
      t.filter p ++ [Event.Remove path r].filter p := by
  refine ⟨env.Remove (logDebug ("Deleting generated support bundle: " ++ path) t) path, ?_⟩
  unfold deleteSupportBundleArchive
  simp only
  split <;> simp [logDebug, logWarn, hp.log, List.filter_cons]

/-- The events that `supportBundleCmd` adds once the configuration and both
connections are there, seen through a filter that ignores setup events: the phase
calls in order, each one made only when the one before returned no error, and the
deferred deletion after the upload when the cleanup flag is set. -/
theorem supportBundleCmd_filtered (p : Event → Bool) (hp : IgnoresSetup p) (env : Env)
    (ctx : Context) (t t1 t4 : Trace) (conf : SupportBundleCommandConfiguration)
    (rtDetails targetRtDetails : ArtifactoryDetails)
    (hConf : parseArguments env.lib ctx = Except.ok conf)
    (hSource : getRtDetails env.lib ctx.toflagValueProvider env.artifactoryConfigHelper t =
      (Except.ok rtDetails, t1))
    (hTarget : getTargetDetails env.lib ctx.toflagValueProvider env.artifactoryConfigHelper conf
      (logOutput ("Case number is " ++ conf.CaseNumber)
        (logDebug ("Using: " ++ rtDetails.Url ++ "...") t1)) = (Except.ok targetRtDetails, t4)) :
    (∃ bundle e,
      (supportBundleCmd env ctx t).1 = some e ∧
      (supportBundleCmd env ctx t).2.filter p = t.filter p ++
        [Event.CreateSupportBundle ⟨rtDetails⟩ conf
          (getPromptOptions ctx.toflagValueProvider) bundle (some e)].filter p) ∨
    (∃ bundle timeout interval path e,
      (supportBundleCmd env ctx t).1 = some e ∧
      (supportBundleCmd env ctx t).2.filter p = t.filter p ++
        [Event.CreateSupportBundle ⟨rtDetails⟩ conf
          (getPromptOptions ctx.toflagValueProvider) bundle none,
         Event.DownloadSupportBundle ⟨rtDetails⟩ timeout interval bundle path (some e)].filter p) ∨
    (∃ bundle timeout interval path res r,
      (supportBundleCmd env ctx t).1 = res ∧
      (supportBundleCmd env ctx t).2.filter p = t.filter p ++
        ([Event.CreateSupportBundle ⟨rtDetails⟩ conf
          (getPromptOptions ctx.toflagValueProvider) bundle none,
         Event.DownloadSupportBundle ⟨rtDetails⟩ timeout interval bundle path none,
         Event.UploadSupportBundle ⟨targetRtDetails⟩ conf path
          (getTargetRepo ctx.toflagValueProvider) res] ++
         (if shouldCleanup ctx.toflagValueProvider then [Event.Remove path r] else [])).filter
          p) := by
  have h1 : t1.filter p = t.filter p := by
    have h := filter_getRtDetails p hp env.lib ctx.toflagValueProvider
      env.artifactoryConfigHelper t
    rw [hSource] at h
    exact h
  have h4 : t4.filter p = t.filter p := by
    have h := filter_getTargetDetails p hp env.lib ctx.toflagValueProvider
      env.artifactoryConfigHelper conf
      (logOutput ("Case number is " ++ conf.CaseNumber)
        (logDebug ("Using: " ++ rtDetails.Url ++ "...") t1))
    rw [hTarget] at h
    simp only at h
    rw [h]
    simp [logOutput, logDebug, hp.log, h1]
  unfold supportBundleCmd
  simp only [hConf, hSource, hTarget]
  generalize env.CreateSupportBundle t4 ⟨rtDetails⟩ conf
    (getPromptOptions ctx.toflagValueProvider) = created
  obtain ⟨bundle, cerr⟩ := created
  cases cerr with
  | some e =>
    left
    exact ⟨bundle, e, rfl, by simp [List.filter_append, h4]⟩
  | none =>
    right
    simp only
    have hT := filter_getTimeout p hp env.lib ctx.toflagValueProvider
      (t4 ++ [Event.CreateSupportBundle ⟨rtDetails⟩ conf
        (getPromptOptions ctx.toflagValueProvider) bundle none])
    generalize getTimeout env.lib ctx.toflagValueProvider
      (t4 ++ [Event.CreateSupportBundle ⟨rtDetails⟩ conf
        (getPromptOptions ctx.toflagValueProvider) bundle none]) = readTimeout at hT ⊢
    obtain ⟨timeout, t5⟩ := readTimeout
    have hI := filter_getRetryInterval p hp env.lib ctx.toflagValueProvider t5
    generalize getRetryInterval env.lib ctx.toflagValueProvider t5 = readInterval at hI ⊢
    obtain ⟨interval, t6⟩ := readInterval
    simp only at hT hI ⊢
    generalize env.DownloadSupportBundle t6 ⟨rtDetails⟩ timeout interval bundle = downloaded
    obtain ⟨path, derr⟩ := downloaded
    have h6 : t6.filter p = t.filter p ++
        [Event.CreateSupportBundle ⟨rtDetails⟩ conf
          (getPromptOptions ctx.toflagValueProvider) bundle none].filter p := by
      rw [hI, hT, List.filter_append, h4]
    cases derr with
    | some e =>
      left
      exact ⟨bundle, timeout, interval, path, e, rfl, by
        simp only [List.filter_append, h6]
        simp only [← List.filter_append, List.append_assoc, List.cons_append,
          List.nil_append]⟩
    | none =>
      right
      simp only
      generalize env.UploadSupportBundle
        (t6 ++ [Event.DownloadSupportBundle ⟨rtDetails⟩ timeout interval bundle path none])
        ⟨targetRtDetails⟩ conf path (getTargetRepo ctx.toflagValueProvider) = res
      by_cases hcl : shouldCleanup ctx.toflagValueProvider = true
      · simp only [hcl, if_true]
        obtain ⟨r, hr⟩ := filter_deleteSupportBundleArchive p hp env path
          (t6 ++ [Event.DownloadSupportBundle ⟨rtDetails⟩ timeout interval bundle path none] ++
            [Event.UploadSupportBundle ⟨targetRtDetails⟩ conf path
              (getTargetRepo ctx.toflagValueProvider) res])
        refine ⟨bundle, timeout, interval, path, res, r, rfl, ?_⟩
        rw [hr]
        simp only [List.filter_append, h6]
        simp only [← List.filter_append, List.append_assoc, List.cons_append,
          List.nil_append]
      · simp only [hcl, Bool.false_eq_true, if_false]
        refine ⟨bundle, timeout, interval, path, res, none, rfl, ?_⟩
        simp only [List.filter_append, h6]
        simp only [← List.filter_append, List.append_assoc, List.cons_append,
          List.nil_append, List.append_nil]

/-- A run without the cleanup flag adds no call of `os.Remove` to the trace, whether
or not it gets as far as the phases. -/
theorem supportBundleCmd_removals_without_cleanup (env : Env) (ctx : Context) (t : Trace)
    (hcl : shouldCleanup ctx.toflagValueProvider = false) :
    removals (supportBundleCmd env ctx t).2 = removals t := by
  cases hConf : parseArguments env.lib ctx with
  | error e => simp [supportBundleCmd, hConf]
  | ok conf =>
    have h1 := filter_getRtDetails Event.isRemove ignoresSetup_isRemove env.lib
      ctx.toflagValueProvider env.artifactoryConfigHelper t
    cases hS : getRtDetails env.lib ctx.toflagValueProvider env.artifactoryConfigHelper t with
    | mk r t1 =>
      rw [hS] at h1
      cases r with
      | error e =>
        simp only [supportBundleCmd, hConf, hS, removals]
        exact h1
      | ok rtDetails =>
        have h4 := filter_getTargetDetails Event.isRemove ignoresSetup_isRemove env.lib
          ctx.toflagValueProvider env.artifactoryConfigHelper conf
          (logOutput ("Case number is " ++ conf.CaseNumber)
            (logDebug ("Using: " ++ rtDetails.Url ++ "...") t1))
        cases hT : getTargetDetails env.lib ctx.toflagValueProvider
            env.artifactoryConfigHelper conf
            (logOutput ("Case number is " ++ conf.CaseNumber)
              (logDebug ("Using: " ++ rtDetails.Url ++ "...") t1)) with
        | mk r4 t4 =>
          rw [hT] at h4
          cases r4 with
          | error e =>
            simp only [supportBundleCmd, hConf, hS, hT, removals]
            rw [h4]
            simpa [logOutput, logDebug, List.filter_append, List.filter_cons, Event.isRemove]
              using h1
          | ok targetRtDetails =>
            rcases supportBundleCmd_filtered Event.isRemove ignoresSetup_isRemove env ctx t t1 t4
              conf rtDetails targetRtDetails hConf hS hT with
              ⟨bundle, e, _, ht⟩ | ⟨bundle, timeout, interval, path, e, _, ht⟩ |
              ⟨bundle, timeout, interval, path, res, r, _, ht⟩
            · unfold removals; rw [ht]; simp [List.filter_cons, Event.isRemove]
            · unfold removals; rw [ht]; simp [List.filter_cons, Event.isRemove]
            · unfold removals; rw [ht, hcl]; simp [List.filter_cons, Event.isRemove]

/-- C4: once the configuration and the two connections are there, `supportBundleCmd`
calls Create, then Download, then Upload in that order and nothing else among the
phases; Create and Download go to the source connection, Upload to the destination;
Download is called only when Create returned no error and gets the bundle ID Create
returned; Upload is called only when Download returned no error and gets the path
Download returned; the first error of a phase ends the run and is its result,
otherwise the result is what Upload returned. -/
theorem supportBundleCmd_phase_order (env : Env) (ctx : Context) (t t1 t4 : Trace)
    (conf : SupportBundleCommandConfiguration) (rtDetails targetRtDetails : ArtifactoryDetails)
    (hConf : parseArguments env.lib ctx = Except.ok conf)
    (hSource : getRtDetails env.lib ctx.toflagValueProvider env.artifactoryConfigHelper t =
      (Except.ok rtDetails, t1))
    (hTarget : getTargetDetails env.lib ctx.toflagValueProvider env.artifactoryConfigHelper conf
      (logOutput ("Case number is " ++ conf.CaseNumber)
        (logDebug ("Using: " ++ rtDetails.Url ++ "...") t1)) = (Except.ok targetRtDetails, t4)) :
    (∃ bundle e,
      (supportBundleCmd env ctx t).1 = some e ∧
      phases (supportBundleCmd env ctx t).2 = phases t ++
        [Event.CreateSupportBundle ⟨rtDetails⟩ conf
          (getPromptOptions ctx.toflagValueProvider) bundle (some e)]) ∨
    (∃ bundle timeout interval path e,
      (supportBundleCmd env ctx t).1 = some e ∧
      phases (supportBundleCmd env ctx t).2 = phases t ++
        [Event.CreateSupportBundle ⟨rtDetails⟩ conf
          (getPromptOptions ctx.toflagValueProvider) bundle none,
         Event.DownloadSupportBundle ⟨rtDetails⟩ timeout interval bundle path (some e)]) ∨
    (∃ bundle timeout interval path res,
      (supportBundleCmd env ctx t).1 = res ∧
      phases (supportBundleCmd env ctx t).2 = phases t ++
        [Event.CreateSupportBundle ⟨rtDetails⟩ conf
          (getPromptOptions ctx.toflagValueProvider) bundle none,
         Event.DownloadSupportBundle ⟨rtDetails⟩ timeout interval bundle path none,
         Event.UploadSupportBundle ⟨targetRtDetails⟩ conf path
          (getTargetRepo ctx.toflagValueProvider) res]) := by
  rcases supportBundleCmd_filtered Event.isPhase ignoresSetup_isPhase env ctx t t1 t4 conf
    rtDetails targetRtDetails hConf hSource hTarget with
    ⟨bundle, e, hr, ht⟩ | ⟨bundle, timeout, interval, path, e, hr, ht⟩ |
    ⟨bundle, timeout, interval, path, res, r, hr, ht⟩
  · exact Or.inl ⟨bundle, e, hr, by rw [phases, ht]; rfl⟩
  · exact Or.inr (Or.inl ⟨bundle, timeout, interval, path, e, hr, by rw [phases, ht]; rfl⟩)
  · refine Or.inr (Or.inr ⟨bundle, timeout, interval, path, res, hr, ?_⟩)
    rw [phases, ht]
    cases shouldCleanup ctx.toflagValueProvider <;> rfl

/-- Witness for C4: a run for case `foo` against the sample environment, in which
all three phases succeed. -/
theorem supportBundleCmd_phase_order_witness :
    (∃ bundle e,
      (supportBundleCmd (sampleEnv none none none) (sampleContext "" true) []).1 = some e ∧
      phases (supportBundleCmd (sampleEnv none none none) (sampleContext "" true) []).2 =
        phases [] ++
        [Event.CreateSupportBundle ⟨sampleSource⟩ sampleConf
          (getPromptOptions (sampleContext "" true).toflagValueProvider) bundle (some e)]) ∨
    (∃ bundle timeout interval path e,
      (supportBundleCmd (sampleEnv none none none) (sampleContext "" true) []).1 = some e ∧
      phases (supportBundleCmd (sampleEnv none none none) (sampleContext "" true) []).2 =
        phases [] ++
        [Event.CreateSupportBundle ⟨sampleSource⟩ sampleConf
          (getPromptOptions (sampleContext "" true).toflagValueProvider) bundle none,
         Event.DownloadSupportBundle ⟨sampleSource⟩ timeout interval bundle path (some e)]) ∨
    (∃ bundle timeout interval path res,
      (supportBundleCmd (sampleEnv none none none) (sampleContext "" true) []).1 = res ∧
      phases (supportBundleCmd (sampleEnv none none none) (sampleContext "" true) []).2 =
        phases [] ++
        [Event.CreateSupportBundle ⟨sampleSource⟩ sampleConf
          (getPromptOptions (sampleContext "" true).toflagValueProvider) bundle none,
         Event.DownloadSupportBundle ⟨sampleSource⟩ timeout interval bundle path none,
         Event.UploadSupportBundle ⟨sampleDestination⟩ sampleConf path
          (getTargetRepo (sampleContext "" true).toflagValueProvider) res]) :=
  supportBundleCmd_phase_order (sampleEnv none none none) (sampleContext "" true) []
    (getRtDetails sampleLib (sampleContext "" true).toflagValueProvider sampleHelper []).2
    ((getRtDetails sampleLib (sampleContext "" true).toflagValueProvider sampleHelper []).2
      ++ [Event.Log LogLevel.Debug "Using: http://source:8081/artifactory/...",
          Event.Log LogLevel.Output "Case number is foo"])
    sampleConf sampleSource sampleDestination rfl rfl rfl

/-- C5: a run with the cleanup flag set that has its configuration and both
connections deletes the archive exactly when Download returned it without error,
once, after Upload has returned, and the result of the run is what Upload returned
whatever the deletion answers; a run without the cleanup flag never calls
`os.Remove`. -/
theorem supportBundleCmd_cleanup (env : Env) (ctx : Context) (t : Trace) :
    (shouldCleanup ctx.toflagValueProvider = true →
      ∀ (t1 t4 : Trace) (conf : SupportBundleCommandConfiguration)
        (rtDetails targetRtDetails : ArtifactoryDetails),
      parseArguments env.lib ctx = Except.ok conf →
      getRtDetails env.lib ctx.toflagValueProvider env.artifactoryConfigHelper t =
        (Except.ok rtDetails, t1) →
      getTargetDetails env.lib ctx.toflagValueProvider env.artifactoryConfigHelper conf
        (logOutput ("Case number is " ++ conf.CaseNumber)
          (logDebug ("Using: " ++ rtDetails.Url ++ "...") t1)) =
        (Except.ok targetRtDetails, t4) →
      (∃ bundle e,
        (supportBundleCmd env ctx t).1 = some e ∧
        phasesAndRemovals (supportBundleCmd env ctx t).2 = phasesAndRemovals t ++
          [Event.CreateSupportBundle ⟨rtDetails⟩ conf
            (getPromptOptions ctx.toflagValueProvider) bundle (some e)]) ∨
      (∃ bundle timeout interval path e,
        (supportBundleCmd env ctx t).1 = some e ∧
        phasesAndRemovals (supportBundleCmd env ctx t).2 = phasesAndRemovals t ++
          [Event.CreateSupportBundle ⟨rtDetails⟩ conf
            (getPromptOptions ctx.toflagValueProvider) bundle none,
           Event.DownloadSupportBundle ⟨rtDetails⟩ timeout interval bundle path (some e)]) ∨
      (∃ bundle timeout interval path res r,
        (supportBundleCmd env ctx t).1 = res ∧
        phasesAndRemovals (supportBundleCmd env ctx t).2 = phasesAndRemovals t ++
          [Event.CreateSupportBundle ⟨rtDetails⟩ conf
            (getPromptOptions ctx.toflagValueProvider) bundle none,
           Event.DownloadSupportBundle ⟨rtDetails⟩ timeout interval bundle path none,
           Event.UploadSupportBundle ⟨targetRtDetails⟩ conf path
            (getTargetRepo ctx.toflagValueProvider) res,
           Event.Remove path r])) ∧
    (shouldCleanup ctx.toflagValueProvider = false →
      removals (supportBundleCmd env ctx t).2 = removals t) := by
  constructor
  · intro hcl t1 t4 conf rtDetails targetRtDetails hConf hSource hTarget
    rcases supportBundleCmd_filtered (fun e => e.isPhase || e.isRemove)
      ignoresSetup_isPhaseOrRemove env ctx t t1 t4 conf
      rtDetails targetRtDetails hConf hSource hTarget with
      ⟨bundle, e, hr, ht⟩ | ⟨bundle, timeout, interval, path, e, hr, ht⟩ |
      ⟨bundle, timeout, interval, path, res, r, hr, ht⟩
    · exact Or.inl ⟨bundle, e, hr, by rw [phasesAndRemovals, ht]; rfl⟩
    · exact Or.inr (Or.inl ⟨bundle, timeout, interval, path, e, hr, by
        rw [phasesAndRemovals, ht]; rfl⟩)
    · refine Or.inr (Or.inr ⟨bundle, timeout, interval, path, res, r, hr, ?_⟩)
      rw [phasesAndRemovals, ht, hcl]
      rfl
  · exact supportBundleCmd_removals_without_cleanup env ctx t

/-- Witness for C5: a run with the cleanup flag set in which Upload fails and the
deletion fails too, and a run without the cleanup flag. -/
theorem supportBundleCmd_cleanup_witness :
    ((∃ bundle e,
        (supportBundleCmd (sampleEnv none (some ⟨"upload failed"⟩) (some ⟨"remove failed"⟩))
          (sampleContext "" true) []).1 = some e ∧
        phasesAndRemovals (supportBundleCmd
          (sampleEnv none (some ⟨"upload failed"⟩) (some ⟨"remove failed"⟩))
          (sampleContext "" true) []).2 = phasesAndRemovals [] ++
          [Event.CreateSupportBundle ⟨sampleSource⟩ sampleConf
            (getPromptOptions (sampleContext "" true).toflagValueProvider) bundle (some e)]) ∨
      (∃ bundle timeout interval path e,
        (supportBundleCmd (sampleEnv none (some ⟨"upload failed"⟩) (some ⟨"remove failed"⟩))
          (sampleContext "" true) []).1 = some e ∧
        phasesAndRemovals (supportBundleCmd
          (sampleEnv none (some ⟨"upload failed"⟩) (some ⟨"remove failed"⟩))
          (sampleContext "" true) []).2 = phasesAndRemovals [] ++
          [Event.CreateSupportBundle ⟨sampleSource⟩ sampleConf
            (getPromptOptions (sampleContext "" true).toflagValueProvider) bundle none,
           Event.DownloadSupportBundle ⟨sampleSource⟩ timeout interval bundle path (some e)]) ∨
      (∃ bundle timeout interval path res r,
        (supportBundleCmd (sampleEnv none (some ⟨"upload failed"⟩) (some ⟨"remove failed"⟩))
          (sampleContext "" true) []).1 = res ∧
        phasesAndRemovals (supportBundleCmd
          (sampleEnv none (some ⟨"upload failed"⟩) (some ⟨"remove failed"⟩))
          (sampleContext "" true) []).2 = phasesAndRemovals [] ++
          [Event.CreateSupportBundle ⟨sampleSource⟩ sampleConf
            (getPromptOptions (sampleContext "" true).toflagValueProvider) bundle none,
           Event.DownloadSupportBundle ⟨sampleSource⟩ timeout interval bundle path none,
           Event.UploadSupportBundle ⟨sampleDestination⟩ sampleConf path
            (getTargetRepo (sampleContext "" true).toflagValueProvider) res,
           Event.Remove path r])) ∧
    removals (supportBundleCmd (sampleEnv none none none) (sampleContext "" false) []).2 =
      removals [] :=
  ⟨(supportBundleCmd_cleanup
      (sampleEnv none (some ⟨"upload failed"⟩) (some ⟨"remove failed"⟩))
      (sampleContext "" true) []).1 rfl
      (getRtDetails sampleLib (sampleContext "" true).toflagValueProvider sampleHelper []).2
      ((getRtDetails sampleLib (sampleContext "" true).toflagValueProvider sampleHelper []).2
        ++ [Event.Log LogLevel.Debug "Using: http://source:8081/artifactory/...",
            Event.Log LogLevel.Output "Case number is foo"])
      sampleConf sampleSource sampleDestination rfl rfl rfl,
    (supportBundleCmd_cleanup (sampleEnv none none none) (sampleContext "" false) []).2 rfl⟩

/-! ## Readiness / Download Controller -/

/-- Once the time budget is used up, the end of the next probe is at or after the
deadline. -/
theorem deadline_of_budget (timeout : Int) (elapsed took : Nat)
    (h : timeout.toNat - elapsed ≤ 0) : timeout ≤ ((elapsed + took + 1 : Nat) : Int) := by
  omega

/-- A probe that does not end before the deadline ends at or after it. -/
theorem deadline_of_not_lt (timeout : Int) (elapsed took : Nat)
    (h : ¬ ((elapsed : Int) + (took : Int) + 1 < timeout)) :
    timeout ≤ ((elapsed + took + 1 : Nat) : Int) := by
  omega

/-- Polling a service that answers every probe with 404, under a context that is
never cancelled, adds exactly the steps of `pollsUntilDeadline` and ends with Timeout,
reporting the end of the last probe. -/
theorem poll_all_not_found (env : DownloadEnv) (timeout interval : Duration)
    (bundleID : BundleID)
    (hProbe : ∀ n, (env.probe n bundleID).statusCode = 404 ∧
      (env.probe n bundleID).transportError = none)
    (hCtx : ∀ e, env.cancelled e = false) :
    ∀ (m index elapsed : Nat) (steps : List DownloadEvent), timeout.toNat - elapsed ≤ m →
      ∃ (now : Nat) (tail : List DownloadEvent),
        poll env timeout interval bundleID index elapsed steps =
          ⟨"", some (DownloadError.Timeout now bundleID), steps ++ tail⟩ ∧
        pollsUntilDeadline env timeout interval bundleID now index elapsed tail = true := by
  intro m
  induction m with
  | zero =>
    intro index elapsed steps hm
    have hd := deadline_of_budget timeout elapsed (env.probe index bundleID).took hm
    refine ⟨elapsed + (env.probe index bundleID).took + 1,
      [DownloadEvent.Probe index elapsed 404], ?_, ?_⟩
    · rw [poll]
      have hlt :
          ¬ ((elapsed : Int) + ((env.probe index bundleID).took : Int) + 1 < timeout) := by
        omega
      simp [hCtx, hProbe, hlt]
    · simp only [pollsUntilDeadline, decide_True, Bool.and_true, Bool.true_and,
        decide_eq_true_eq]
      exact hd
  | succ m ih =>
    intro index elapsed steps hm
    by_cases hlt : ((elapsed : Int) + ((env.probe index bundleID).took : Int) + 1 < timeout)
    · obtain ⟨now, tail, hpoll, htail⟩ := ih (index + 1)
        (elapsed + (env.probe index bundleID).took + 1 + interval.toNat)
        (steps ++ [DownloadEvent.Probe index elapsed 404] ++
          [DownloadEvent.Wait (elapsed + (env.probe index bundleID).took + 1) interval])
        (by omega)
      refine ⟨now, DownloadEvent.Probe index elapsed 404 ::
        DownloadEvent.Wait (elapsed + (env.probe index bundleID).took + 1) interval :: tail,
        ?_, ?_⟩
      · rw [poll]
        simp only [hCtx, hProbe, Bool.false_eq_true, if_false]
        simp only [Nat.cast_add, Nat.cast_one, hlt, if_true]
        have h404 : ¬ ((200 : Int) ≤ 404 ∧ (404 : Int) < 300) := by omega
        simp only [h404, if_false, if_true]
        rw [hpoll]
        simp
      · simp only [pollsUntilDeadline, htail, decide_True, Bool.and_true, Bool.true_and,
          decide_eq_true_eq]
        push_cast
        exact hlt
    · have hd := deadline_of_not_lt timeout elapsed (env.probe index bundleID).took hlt
      refine ⟨elapsed + (env.probe index bundleID).took + 1,
        [DownloadEvent.Probe index elapsed 404], ?_, ?_⟩
      · rw [poll]
        simp [hCtx, hProbe, hlt]
      · simp only [pollsUntilDeadline, decide_True, Bool.and_true, Bool.true_and,
          decide_eq_true_eq]
        exact hd

/-- C7: for every bundle ID, timeout and interval, when every probe is answered with
404 (and the calling context is not cancelled), `download` returns no archive and
fails with Timeout carrying the bundle ID and the time at which the last probe ended,
not with the unexpected-status error for 404; its steps are exactly those of
`pollsUntilDeadline` from the first probe at time 0: every probe that ended before
`timeout` is followed by a wait of `interval` and another probe, and the run stops at
the first probe that ends at or after `timeout`. -/
theorem download_not_found_times_out (env : DownloadEnv) (timeout interval : Duration)
    (bundleID : BundleID)
    (hProbe : ∀ n, (env.probe n bundleID).statusCode = 404 ∧
      (env.probe n bundleID).transportError = none)
    (hCtx : ∀ e, env.cancelled e = false) :
    ∃ elapsed : Nat,
      (download env timeout interval bundleID).path = "" ∧
      (download env timeout interval bundleID).err =
        some (DownloadError.Timeout elapsed bundleID) ∧
      (download env timeout interval bundleID).err ≠
        some (DownloadError.UnexpectedStatus 404) ∧
      pollsUntilDeadline env timeout interval bundleID elapsed 0 0
        (download env timeout interval bundleID).steps = true := by
  obtain ⟨now, tail, hpoll, htail⟩ :=
    poll_all_not_found env timeout interval bundleID hProbe hCtx (timeout.toNat) 0 0 []
      (by omega)
  refine ⟨now, ?_, ?_, ?_, ?_⟩
  · rw [download, hpoll]
  · rw [download, hpoll]
  · rw [download, hpoll]
    simp
  · rw [download, hpoll]
    simpa using htail

/-- Witness for C7: the service that answers every probe with 404, a timeout of one
second and an interval of 100 milliseconds. -/
theorem download_not_found_times_out_witness :
    ∃ elapsed : Nat,
      (download notFoundEnv 1000000000 100000000 "b1").path = "" ∧
      (download notFoundEnv 1000000000 100000000 "b1").err =
        some (DownloadError.Timeout elapsed "b1") ∧
      (download notFoundEnv 1000000000 100000000 "b1").err ≠
        some (DownloadError.UnexpectedStatus 404) ∧
      pollsUntilDeadline notFoundEnv 1000000000 100000000 "b1" elapsed 0 0
        (download notFoundEnv 1000000000 100000000 "b1").steps = true :=
  download_not_found_times_out notFoundEnv 1000000000 100000000 "b1"
    (fun _ => ⟨rfl, rfl⟩) (fun _ => rfl)

end SupportBundle
